import Mathlib

/-!
Zep Go client: error handling, constructors and request issuing

A shallow embedding of the six Go source files of the `zep` package
(`error_handling.go`, `zep_client.go`, `document_client.go`, `memory_client.go`,
`user_client.go`, `http_requests.go`) and the properties proved about them.

Conventions of the embedding:

* a Go pointer `*T` is `Ptr T`, the pointee or `none` for nil; a dereference of
  nil is the panic `GoPanic.nilDereference`, so every function with a pointer
  receiver or pointer parameter returns in `Except GoPanic`;
* an `*http.Client` is a handle: nil or the address of a client. What a client
  does when asked to `Get` or `Post` belongs to `net/http`, which is not part of
  the package; it is the parameter `HTTPLayer`;
* a Go `string` is a `String`, a Go `int` an `Int` (no arithmetic is done on it);
* effects are explicit: the network is a state `W` threaded through the layer,
  and `HandleResponse` returns the response as it is after the call.
-/

namespace Zep

/-! ## Go run-time values -/

/-- Run-time panics that the embedded code can reach. -/
inductive GoPanic where
  | nilDereference
  deriving DecidableEq, Repr

/-- A Go pointer, by its pointee; `none` is the nil pointer. -/
abbrev Ptr (α : Type) := Option α

/-- An `*http.Client`: `none` is nil, `some a` the client allocated at address `a`. -/
abbrev HTTPClientHandle := Option Nat

/-! ## `fmt.Sprintf`, the fragment the package uses -/

/-- The text `fmt` prints for operands left over once the format is exhausted. -/
def sprintfExtra : List String → List Char
  | [] => []
  | args => "%!(EXTRA ".data ++ (", ".intercalate (args.map fun a => "string=" ++ a)).data ++ [')']

/-- Expansion of a format whose verbs are `%s` (and the escape `%%`) over string
operands: each `%s` is replaced by the next operand, byte for byte; a `%s` with
no operand left prints `%!s(MISSING)`; operands left over are reported at the end. -/
def sprintfAux : List Char → List String → List Char
  | [], args => sprintfExtra args
  | '%' :: 's' :: rest, a :: args => a.data ++ sprintfAux rest args
  | '%' :: 's' :: rest, [] => "%!s(MISSING)".data ++ sprintfAux rest []
  | '%' :: '%' :: rest, args => '%' :: sprintfAux rest args
  | c :: rest, args => c :: sprintfAux rest args

/-- Model of `fmt.Sprintf(format, args...)` for string operands and `%s` verbs. -/
def Sprintf (format : String) (args : List String) : String :=
  ⟨sprintfAux format.data args⟩

/-! ## error_handling.go -/

/-- The struct `APIError` of error_handling.go. -/
structure APIError where
  Message : String
  deriving DecidableEq, Repr

/-- The method `func (e *APIError) Error() string`:
`return fmt.Sprintf("API error: %s", e.Message)`. -/
def APIError.Error (e : Ptr APIError) : Except GoPanic String :=
  match e with
  | none => .error .nilDereference
  | some e => .ok (Sprintf "API error: %s" [e.Message])

/-- A non-nil value of the Go interface `error`, by its dynamic type: an
`*APIError` of this package (held by its pointee, so two errors are compared by
content, not by address), or an error made by `net/http`, which is kept opaque
but for its text. The nil `error` is `none : Option GoError`. -/
inductive GoError where
  | api (e : APIError)
  | transport (text : String)
  deriving DecidableEq, Repr

/-- Dynamic dispatch of `err.Error()`. -/
def GoError.Error : GoError → Except GoPanic String
  | .api e => APIError.Error (some e)
  | .transport text => .ok text

/-- State of a response body (`io.ReadCloser`): the bytes not read yet and
whether `Close` has been called. -/
structure Body where
  unread : List UInt8
  closed : Bool
  deriving DecidableEq, Repr

/-- The fields of `http.Response` that the package or its specification mention. -/
structure Response where
  StatusCode : Int
  Header : List (String × List String)
  Body : Body
  deriving DecidableEq, Repr

/-- The function `func HandleResponse(response *http.Response) error`:
```
if response.StatusCode != 200 {
    return &APIError{Message: "Unexpected status code"}
}
return nil
```
The second component is the pointee of `response` when the call returns. -/
def HandleResponse (response : Ptr Response) : Except GoPanic (Option GoError × Response) :=
  match response with
  | none => .error .nilDereference
  | some r =>
    if r.StatusCode ≠ 200 then
      .ok (some (.api { Message := "Unexpected status code" }), r)
    else
      .ok (none, r)

/-- The scenario "call `HandleResponse` twice on the same response": the second
call sees the response as the first call left it. The result is both errors and
the response after both calls. -/
def handleTwice (response : Ptr Response) :
    Except GoPanic (Option GoError × Option GoError × Response) :=
  match HandleResponse response with
  | .error p => .error p
  | .ok (e₁, r₁) =>
    match HandleResponse (some r₁) with
    | .error p => .error p
    | .ok (e₂, r₂) => .ok (e₁, e₂, r₂)

/-! ## zep_client.go, document_client.go, memory_client.go, user_client.go -/

/-- The struct `ZepClient` of zep_client.go (fields in declaration order). -/
structure ZepClient where
  Client : HTTPClientHandle
  AClient : HTTPClientHandle
  deriving DecidableEq, Repr

/-- The constructor `func NewZepClient(client, aclient *http.Client) *ZepClient`. -/
def NewZepClient (client aclient : HTTPClientHandle) : Ptr ZepClient :=
  some { Client := client, AClient := aclient }

/-- The struct `DocumentClient` of document_client.go (fields in declaration order). -/
structure DocumentClient where
  AClient : HTTPClientHandle
  Client : HTTPClientHandle
  deriving DecidableEq, Repr

/-- The constructor `func NewDocumentClient(aclient, client *http.Client) *DocumentClient`. -/
def NewDocumentClient (aclient client : HTTPClientHandle) : Ptr DocumentClient :=
  some { AClient := aclient, Client := client }

/-- The struct `MemoryClient` of memory_client.go (fields in declaration order). -/
structure MemoryClient where
  AClient : HTTPClientHandle
  Client : HTTPClientHandle
  deriving DecidableEq, Repr

/-- The constructor `func NewMemoryClient(aclient, client *http.Client) *MemoryClient`. -/
def NewMemoryClient (aclient client : HTTPClientHandle) : Ptr MemoryClient :=
  some { AClient := aclient, Client := client }

/-- The struct `UserClient` of user_client.go (fields in declaration order). -/
structure UserClient where
  AClient : HTTPClientHandle
  Client : HTTPClientHandle
  deriving DecidableEq, Repr

/-- The constructor `func NewUserClient(aclient, client *http.Client) *UserClient`. -/
def NewUserClient (aclient client : HTTPClientHandle) : Ptr UserClient :=
  some { AClient := aclient, Client := client }

/-! ## http_requests.go -/

/-- An `io.Reader` holding a request body: the bytes it will yield. A nil reader
is `none : Ptr Reader`. -/
structure Reader where
  pending : List UInt8
  deriving DecidableEq, Repr

/-- What a call into `net/http` does from network state `w`: it panics, or it
returns the Go pair `(*http.Response, error)` and leaves the network in a new state. -/
abbrev RoundTrip (W : Type) := Except GoPanic ((Ptr Response × Option GoError) × W)

/-- The two methods of `*http.Client` that the package calls. They belong to
`net/http`, so they are a parameter of the embedding: any behaviour at all,
over any type `W` of network states. The first argument is the receiver. -/
structure HTTPLayer (W : Type) where
  Get : HTTPClientHandle → String → W → RoundTrip W
  Post : HTTPClientHandle → String → String → Ptr Reader → W → RoundTrip W

/-- The method `func (c *ZepClient) Get(url string) (*http.Response, error)`:
`return c.Client.Get(url)`. -/
def ZepClient.Get {W : Type} (net : HTTPLayer W) (c : Ptr ZepClient) (url : String) (w : W) :
    RoundTrip W :=
  match c with
  | none => .error .nilDereference
  | some c => net.Get c.Client url w

/-- The method
`func (c *ZepClient) Post(url string, bodyType string, body io.Reader) (*http.Response, error)`:
`return c.Client.Post(url, bodyType, body)`. -/
def ZepClient.Post {W : Type} (net : HTTPLayer W) (c : Ptr ZepClient) (url : String)
    (bodyType : String) (body : Ptr Reader) (w : W) : RoundTrip W :=
  match c with
  | none => .error .nilDereference
  | some c => net.Post c.Client url bodyType body w

/-! ## A concrete network, to run the request issuer on -/

/-- A request as the test server received it. -/
structure Request where
  via : Nat
  method : String
  url : String
  contentType : String
  body : List UInt8
  deriving DecidableEq, Repr

/-- Status the test server answers with: 200 at `http://valid-url`, 404 elsewhere. -/
def echoStatus (url : String) : Int :=
  if url = "http://valid-url" then 200 else 404

/-- One instance of `HTTPLayer`, whose network state is the list of requests the
server has received. A nil client panics; `http://unreachable-host:1` refuses
the connection, so nothing reaches the server and the caller gets
`(nil, error)`; any other `Get` is answered with body `ok`, and any other `Post`
is answered with the request body echoed back. -/
def echoLayer : HTTPLayer (List Request) where
  Get h url log :=
    match h with
    | none => .error .nilDereference
    | some a =>
      if url = "http://unreachable-host:1" then
        .ok ((none, some (.transport "connection refused")), log)
      else
        .ok ((some { StatusCode := echoStatus url, Header := [],
                     Body := { unread := [111, 107], closed := false } }, none),
             log ++ [{ via := a, method := "GET", url := url, contentType := "", body := [] }])
  Post h url bodyType body log :=
    match h with
    | none => .error .nilDereference
    | some a =>
      if url = "http://unreachable-host:1" then
        .ok ((none, some (.transport "connection refused")), log)
      else
        let bytes := match body with
          | none => []
          | some rd => rd.pending
        .ok ((some { StatusCode := echoStatus url, Header := [("Content-Type", [bodyType])],
                     Body := { unread := bytes, closed := false } }, none),
             log ++ [{ via := a, method := "POST", url := url, contentType := bodyType,
                       body := bytes }])

/-! ## Helper lemmas -/

/-- The format of `APIError.Error` expands to the fixed text followed by the operand. -/
theorem sprintf_api (m : String) : Sprintf "API error: %s" [m] = "API error: " ++ m := by
  apply String.ext
  simp [Sprintf, sprintfAux, sprintfExtra]

/-- `HandleResponse` on a non-nil response whose status is not 200. -/
theorem handleResponse_of_ne (r : Response) (h : r.StatusCode ≠ 200) :
    HandleResponse (some r) = .ok (some (.api { Message := "Unexpected status code" }), r) := by
  simp [HandleResponse, h]

/-- `HandleResponse` on a non-nil response whose status is 200. -/
theorem handleResponse_of_eq (r : Response) (h : r.StatusCode = 200) :
    HandleResponse (some r) = .ok (none, r) := by
  simp [HandleResponse, h]

/-! ## error_handling.go: `HandleResponse` and `APIError.Error` -/

/-- C1: for every non-nil response `r`, `HandleResponse(r)` returns (it does not
panic), and the error it returns is nil if and only if `r.StatusCode` is exactly
200; every other status code yields a non-nil error, in particular 201, 204, 301,
400, 404 and 500, whatever the headers and the body. -/
theorem HandleResponse_nil_iff_200 (r : Response) :
    (∃ e, HandleResponse (some r) = .ok (e, r) ∧ (e = none ↔ r.StatusCode = 200))
    ∧ (HandleResponse (some r) = .ok (none, r) ↔ r.StatusCode = 200)
    ∧ (∀ code ∈ [201, 204, 301, 400, 404, 500], ∀ hd b, ∃ e,
        HandleResponse (some { StatusCode := code, Header := hd, Body := b })
          = .ok (some e, { StatusCode := code, Header := hd, Body := b })) := by
  refine ⟨?_, ?_, ?_⟩
  · by_cases h : r.StatusCode = 200
    · exact ⟨none, handleResponse_of_eq r h, by simp [h]⟩
    · exact ⟨_, handleResponse_of_ne r h, by simp [h]⟩
  · by_cases h : r.StatusCode = 200
    · simp [handleResponse_of_eq r h, h]
    · simp [handleResponse_of_ne r h, h]
  · intro code hc hd b
    refine ⟨_, handleResponse_of_ne _ ?_⟩
    simp only [List.mem_cons, List.mem_singleton, List.not_mem_nil, or_false] at hc
    rcases hc with h | h | h | h | h | h <;> simp [h]

/-- C2: for every response `r` whose status code is not 200, `HandleResponse(r)`
returns an `*APIError` whose `Message` is "Unexpected status code" and whose
`Error()` text is exactly "API error: Unexpected status code"; any other
response with a status code other than 200 gets the same error, whatever the
two status codes, headers and bodies are. -/
theorem HandleResponse_fixed_error (r : Response) (h : r.StatusCode ≠ 200) :
    ∃ e : APIError,
      HandleResponse (some r) = .ok (some (.api e), r)
      ∧ e.Message = "Unexpected status code"
      ∧ APIError.Error (some e) = .ok "API error: Unexpected status code"
      ∧ GoError.Error (.api e) = .ok "API error: Unexpected status code"
      ∧ ∀ r' : Response, r'.StatusCode ≠ 200 →
          HandleResponse (some r') = .ok (some (.api e), r') := by
  refine ⟨{ Message := "Unexpected status code" }, handleResponse_of_ne r h, rfl, ?_, ?_, ?_⟩
  · simp only [APIError.Error, sprintf_api]
    rfl
  · simp only [GoError.Error, APIError.Error, sprintf_api]
    rfl
  · intro r' h'
    exact handleResponse_of_ne r' h'

/-- Witness of C2: a 404 response with a body. -/
theorem HandleResponse_fixed_error_witness :
    ∃ e : APIError,
      HandleResponse (some { StatusCode := 404, Header := [], Body := ⟨[110, 111], false⟩ })
        = .ok (some (.api e), { StatusCode := 404, Header := [], Body := ⟨[110, 111], false⟩ })
      ∧ e.Message = "Unexpected status code"
      ∧ APIError.Error (some e) = .ok "API error: Unexpected status code"
      ∧ GoError.Error (.api e) = .ok "API error: Unexpected status code"
      ∧ ∀ r' : Response, r'.StatusCode ≠ 200 →
          HandleResponse (some r') = .ok (some (.api e), r') :=
  HandleResponse_fixed_error
    { StatusCode := 404, Header := [], Body := ⟨[110, 111], false⟩ } (by decide)

/-- C8: `HandleResponse` is a pure function of the response. Called twice on the
same response it returns the same error both times, both nil or both the same
API error, and the response is as it was; and two responses with equal status
codes get the same error, whatever their headers and bodies. -/
theorem HandleResponse_pure (r : Response) :
    (∃ e, HandleResponse (some r) = .ok (e, r)
        ∧ handleTwice (some r) = .ok (e, e, r)
        ∧ (e = none ∨ e = some (.api { Message := "Unexpected status code" })))
    ∧ (∀ r' : Response, r'.StatusCode = r.StatusCode →
        ∃ e, HandleResponse (some r) = .ok (e, r) ∧ HandleResponse (some r') = .ok (e, r')) := by
  by_cases h : r.StatusCode = 200
  · have h₁ := handleResponse_of_eq r h
    refine ⟨⟨none, h₁, ?_, Or.inl rfl⟩, ?_⟩
    · simp [handleTwice, h₁]
    · intro r' h'
      exact ⟨none, h₁, handleResponse_of_eq r' (h'.trans h)⟩
  · have h₁ := handleResponse_of_ne r h
    refine ⟨⟨_, h₁, ?_, Or.inr rfl⟩, ?_⟩
    · simp [handleTwice, h₁]
    · intro r' h'
      exact ⟨_, h₁, handleResponse_of_ne r' (by rw [h']; exact h)⟩

/-- C9: `HandleResponse` leaves the response unchanged. For every non-nil
response `r` the call returns, with or without an error, and the response after
the call is `r`: same status code, same headers, same unread body content and
same open/closed state of the body. -/
theorem HandleResponse_frame (r : Response) :
    ∃ e r', HandleResponse (some r) = .ok (e, r')
      ∧ r' = r
      ∧ r'.StatusCode = r.StatusCode
      ∧ r'.Header = r.Header
      ∧ r'.Body.unread = r.Body.unread
      ∧ r'.Body.closed = r.Body.closed := by
  by_cases h : r.StatusCode = 200
  · exact ⟨_, r, handleResponse_of_eq r h, rfl, rfl, rfl, rfl, rfl⟩
  · exact ⟨_, r, handleResponse_of_ne r h, rfl, rfl, rfl, rfl, rfl⟩

/-- C10: for every `APIError` `e`, `e.Error()` is exactly "API error: " followed
by `e.Message` unchanged. So two `APIError`s with the same text have the same
`Message` (and are equal), and the `Message` is what is left of the text once its
first 11 characters, the length of "API error: ", are dropped. -/
theorem APIError_Error_text (e : APIError) :
    APIError.Error (some e) = .ok ("API error: " ++ e.Message)
    ∧ (∀ e' : APIError, APIError.Error (some e') = APIError.Error (some e) →
        e'.Message = e.Message ∧ e' = e)
    ∧ "API error: ".length = 11
    ∧ (∀ text, APIError.Error (some e) = .ok text →
        text.take 11 = "API error: " ∧ text.drop 11 = e.Message) := by
  have key : ∀ x : APIError, APIError.Error (some x) = .ok ("API error: " ++ x.Message) := by
    intro x
    simp only [APIError.Error, sprintf_api]
  refine ⟨key e, ?_, by decide, ?_⟩
  · intro e' he
    rw [key e', key e] at he
    have h₁ : "API error: " ++ e'.Message = "API error: " ++ e.Message := by
      injection he
    have h₂ : e'.Message = e.Message := by
      have h₃ := congrArg String.data h₁
      simp only [String.data_append, List.append_cancel_left_eq] at h₃
      exact String.ext h₃
    refine ⟨h₂, ?_⟩
    cases e; cases e'
    simp_all
  · intro text ht
    rw [key e] at ht
    have h₁ : "API error: " ++ e.Message = text := by
      injection ht
    subst h₁
    constructor
    · apply String.ext
      simp [String.take_eq]
    · apply String.ext
      simp [String.drop_eq]

/-! ## Constructors -/

/-- C4: all four constructors return a non-nil struct that holds both inputs
unchanged, each in the field named after its parameter: `NewZepClient(client,
aclient)` has `Client = client` and `AClient = aclient`, and `NewDocumentClient`,
`NewMemoryClient` and `NewUserClient(aclient, client)` have `AClient = aclient`
and `Client = client`. Nothing is validated, so the same holds at nil handles. -/
theorem constructors_store_by_name (client aclient : HTTPClientHandle) :
    NewZepClient client aclient = some { Client := client, AClient := aclient }
    ∧ NewDocumentClient aclient client = some { AClient := aclient, Client := client }
    ∧ NewMemoryClient aclient client = some { AClient := aclient, Client := client }
    ∧ NewUserClient aclient client = some { AClient := aclient, Client := client }
    ∧ NewZepClient none none = some { Client := none, AClient := none }
    ∧ NewDocumentClient none none = some { AClient := none, Client := none }
    ∧ NewMemoryClient none none = some { AClient := none, Client := none }
    ∧ NewUserClient none none = some { AClient := none, Client := none } :=
  ⟨rfl, rfl, rfl, rfl, rfl, rfl, rfl, rfl⟩

/-- C3 as stated fails: with the two distinct handles `p` at address 1 and `a` at
address 2, none of `NewDocumentClient(p, a)`, `NewMemoryClient(p, a)` and
`NewUserClient(p, a)` is the client with `Client = p` and `AClient = a`; each has
`Client = a` and `AClient = p`. -/
theorem resource_constructors_not_primary_first :
    NewDocumentClient (some 1) (some 2) ≠ some { Client := some 1, AClient := some 2 }
    ∧ NewMemoryClient (some 1) (some 2) ≠ some { Client := some 1, AClient := some 2 }
    ∧ NewUserClient (some 1) (some 2) ≠ some { Client := some 1, AClient := some 2 }
    ∧ NewDocumentClient (some 1) (some 2) = some { Client := some 2, AClient := some 1 }
    ∧ NewMemoryClient (some 1) (some 2) = some { Client := some 2, AClient := some 1 }
    ∧ NewUserClient (some 1) (some 2) = some { Client := some 2, AClient := some 1 } := by
  decide

/-- C3, amended: each resource client constructor takes its arguments in the
order (alternate, primary). For every pair of handles `x` and `y`, `NewXClient(x,
y)` has `AClient = x` (the first argument) and `Client = y` (the second
argument); it is the client with `Client = x` and `AClient = y` exactly when
`x = y`. -/
theorem resource_constructors_alternate_first (x y : HTTPClientHandle) :
    NewDocumentClient x y = some { AClient := x, Client := y }
    ∧ NewMemoryClient x y = some { AClient := x, Client := y }
    ∧ NewUserClient x y = some { AClient := x, Client := y }
    ∧ (NewDocumentClient x y = some { Client := x, AClient := y } ↔ x = y)
    ∧ (NewMemoryClient x y = some { Client := x, AClient := y } ↔ x = y)
    ∧ (NewUserClient x y = some { Client := x, AClient := y } ↔ x = y) := by
  refine ⟨rfl, rfl, rfl, ?_, ?_, ?_⟩
  · simp only [NewDocumentClient, Option.some.injEq, DocumentClient.mk.injEq]
    constructor
    · rintro ⟨h, -⟩; exact h
    · intro h; exact ⟨h, h.symm⟩
  · simp only [NewMemoryClient, Option.some.injEq, MemoryClient.mk.injEq]
    constructor
    · rintro ⟨h, -⟩; exact h
    · intro h; exact ⟨h, h.symm⟩
  · simp only [NewUserClient, Option.some.injEq, UserClient.mk.injEq]
    constructor
    · rintro ⟨h, -⟩; exact h
    · intro h; exact ⟨h, h.symm⟩

/-! ## http_requests.go: `Get` and `Post` -/

/-- C5: for every non-nil `ZepClient` `c` and url, over any HTTP layer and from
any network state, `c.Get(url)` is the call `c.Client.Get(url)` on the primary
handle: same panic or same `(response, error)` pair, same network state
afterwards (one call, no second attempt). So a `(nil, err)` result of the handle
is returned as `(nil, err)` with the same `err`, and the result is the same
whatever the alternate handle `c.AClient` is. On the test network a refused
connection comes back as `(nil, err)` with the network untouched, and a `Get`
that goes through reaches the server exactly once. -/
theorem Get_is_primary_Get {W : Type} (net : HTTPLayer W) (c : ZepClient) (url : String)
    (w : W) :
    ZepClient.Get net (some c) url w = net.Get c.Client url w
    ∧ (∀ err w', net.Get c.Client url w = .ok ((none, some err), w') →
        ZepClient.Get net (some c) url w = .ok ((none, some err), w'))
    ∧ (∀ alt, ZepClient.Get net (some { c with AClient := alt }) url w
        = ZepClient.Get net (some c) url w)
    ∧ (∀ a alt log, ZepClient.Get echoLayer (NewZepClient (some a) alt)
          "http://unreachable-host:1" log
        = .ok ((none, some (.transport "connection refused")), log))
    ∧ (∀ a alt log, ∃ r, ZepClient.Get echoLayer (NewZepClient (some a) alt)
          "http://valid-url" log
        = .ok ((some r, none), log ++ [{ via := a, method := "GET", url := "http://valid-url",
                                         contentType := "", body := [] }])
          ∧ r.StatusCode = 200 ∧ r.Body.unread = [111, 107]) := by
  refine ⟨rfl, fun err w' h => h, fun _ => rfl, fun _ _ _ => rfl, fun a alt log => ?_⟩
  exact ⟨_, rfl, rfl, rfl⟩

/-- Witness of C5: the refused connection, on a client built by `NewZepClient`. -/
theorem Get_is_primary_Get_witness :
    ZepClient.Get echoLayer (some { Client := some 1, AClient := some 2 })
        "http://unreachable-host:1" []
      = .ok ((none, some (.transport "connection refused")), []) :=
  (Get_is_primary_Get echoLayer { Client := some 1, AClient := some 2 }
    "http://unreachable-host:1" []).2.1 _ _ rfl

/-- C6: for every non-nil `ZepClient` `c`, url, content type and body, over any
HTTP layer and from any network state, `c.Post(url, contentType, body)` is the
call `c.Client.Post(url, contentType, body)` on the primary handle with the same
three arguments in the same order: same panic or same `(response, error)` pair,
same network state afterwards, whatever `c.AClient` is. On the test network,
whose server echoes the request body, the server receives one request with the
caller's url, content type and bytes, and the response body is those bytes. -/
theorem Post_is_primary_Post {W : Type} (net : HTTPLayer W) (c : ZepClient) (url : String)
    (bodyType : String) (body : Ptr Reader) (w : W) :
    ZepClient.Post net (some c) url bodyType body w = net.Post c.Client url bodyType body w
    ∧ (∀ alt, ZepClient.Post net (some { c with AClient := alt }) url bodyType body w
        = ZepClient.Post net (some c) url bodyType body w)
    ∧ (∀ a alt bytes log, url ≠ "http://unreachable-host:1" →
        ZepClient.Post echoLayer (NewZepClient (some a) alt) url bodyType (some ⟨bytes⟩) log
        = .ok ((some { StatusCode := echoStatus url, Header := [("Content-Type", [bodyType])],
                       Body := { unread := bytes, closed := false } }, none),
               log ++ [{ via := a, method := "POST", url := url, contentType := bodyType,
                         body := bytes }])) := by
  refine ⟨rfl, fun _ => rfl, fun a alt bytes log h => ?_⟩
  simp [ZepClient.Post, NewZepClient, echoLayer, h]

/-- Witness of C6: a JSON body posted to the echoing server. -/
theorem Post_is_primary_Post_witness :
    ZepClient.Post echoLayer (some { Client := some 1, AClient := none }) "http://valid-url"
        "application/json" (some ⟨[123, 125]⟩) []
      = .ok ((some { StatusCode := 200, Header := [("Content-Type", ["application/json"])],
                     Body := { unread := [123, 125], closed := false } }, none),
             [{ via := 1, method := "POST", url := "http://valid-url",
                contentType := "application/json", body := [123, 125] }]) :=
  (Post_is_primary_Post echoLayer { Client := some 1, AClient := none } "http://valid-url"
    "application/json" (some ⟨[123, 125]⟩) []).2.2 1 none [123, 125] [] (by decide)

/-- C7: neither `Get` nor `Post` looks at the response status. Whenever the
primary handle returns a response `r`, of any status code, with a nil error,
`Get` and `Post` return that same `r` with a nil error and the same network
state; when the status of `r` is not 200, it is `HandleResponse`, applied to the
returned response, that produces the error. -/
theorem Get_Post_ignore_status {W : Type} (net : HTTPLayer W) (c : ZepClient) (url : String)
    (bodyType : String) (body : Ptr Reader) (w : W) :
    (∀ r w', net.Get c.Client url w = .ok ((some r, none), w') →
        ZepClient.Get net (some c) url w = .ok ((some r, none), w')
        ∧ (r.StatusCode ≠ 200 → ∃ e, HandleResponse (some r) = .ok (some e, r)))
    ∧ (∀ r w', net.Post c.Client url bodyType body w = .ok ((some r, none), w') →
        ZepClient.Post net (some c) url bodyType body w = .ok ((some r, none), w')
        ∧ (r.StatusCode ≠ 200 → ∃ e, HandleResponse (some r) = .ok (some e, r))) := by
  constructor
  · intro r w' h
    exact ⟨h, fun hr => ⟨_, handleResponse_of_ne r hr⟩⟩
  · intro r w' h
    exact ⟨h, fun hr => ⟨_, handleResponse_of_ne r hr⟩⟩

/-- Witness of C7: a `Get` answered 404 comes back with a nil error, and
`HandleResponse` turns it into an error. -/
theorem Get_Post_ignore_status_witness :
    ZepClient.Get echoLayer (some { Client := some 1, AClient := some 2 })
        "http://valid-url/missing" []
      = .ok ((some { StatusCode := 404, Header := [],
                     Body := { unread := [111, 107], closed := false } }, none),
             [{ via := 1, method := "GET", url := "http://valid-url/missing",
                contentType := "", body := [] }])
    ∧ ∃ e, HandleResponse (some { StatusCode := 404, Header := [],
                                  Body := { unread := [111, 107], closed := false } })
        = .ok (some e, { StatusCode := 404, Header := [],
                         Body := { unread := [111, 107], closed := false } }) :=
  ⟨((Get_Post_ignore_status echoLayer { Client := some 1, AClient := some 2 }
      "http://valid-url/missing" "" none []).1 _ _ rfl).1,
   ((Get_Post_ignore_status echoLayer { Client := some 1, AClient := some 2 }
      "http://valid-url/missing" "" none []).1 _ _ rfl).2 (by decide)⟩

end Zep
